import Mathlib

/-!
File_Path_Validator: the Go example client (`examples/go_client_example.go`).

A shallow embedding of the FPV example client: the transport function
`FPVClient.post`, the `PathBuilder` session with `AddPart`, `RemovePart`
and its three accessors.

Modelling conventions.

* A Go `error` built with `fmt.Errorf` (no `%w`) is its message, a `String`;
  a Go result pair `(v, err)` is an `Except String _`.
* A method with receiver `pb *PathBuilder` takes the builder and returns the
  builder it leaves behind next to its result.
* `[]interface{}` holds opaque decoded JSON values; their type is the
  parameter `E`.  A slice is a `List` (a nil slice and an empty slice are both
  the list of length 0).
* `encoding/json`, `net/http` and `io` are not part of the repository.  The
  pure library functions are the fields of `Lib`; the network is `Net`, which
  logs every request handed to `http.Client.Do` and answers the k-th exchange
  with an arbitrary outcome.
-/

namespace FPV

/-! ## Data model (source lines 13-66) -/

/-- The `http.Client` built by `NewFPVClient`; only its timeout is set
(`time.Duration`, nanoseconds). -/
structure HttpClient where
  Timeout : Int
deriving DecidableEq, Repr

/-- Go `type FPVClient struct`. -/
structure FPVClient where
  baseURL : String
  client : HttpClient
deriving DecidableEq, Repr

/-- Go `type PathBuilder struct`. -/
structure PathBuilder (E : Type) where
  client : FPVClient
  service : String
  basePath : String
  pathParts : List String
  errors : List E
  relative : Bool
  fileAdded : Bool
deriving DecidableEq, Repr

/-- Go `type AddPartRequest struct`. -/
structure AddPartRequest (E : Type) where
  Service : String
  BasePath : String
  Parts : List String
  Errors : List E
  Validate : Bool
  Relative : Bool
  FileAdded : Bool
deriving DecidableEq, Repr

/-- Go `type AddPartResponse struct`; `Error *string` is an `Option`. -/
structure AddPartResponse (E : Type) where
  Success : Bool
  UpdatedPath : String
  NewErrors : List E
  AllErrors : List E
  PathParts : List String
  Error : Option String
deriving DecidableEq, Repr

/-- Go `type RemovePartRequest struct`; `PartIndex int` is an `Int`
(the value is only copied, never computed with). -/
structure RemovePartRequest (E : Type) where
  Service : String
  BasePath : String
  PartIndex : Int
  Errors : List E
  Relative : Bool
  FileAdded : Bool
deriving DecidableEq, Repr

/-- Go `type RemovePartResponse struct`. -/
structure RemovePartResponse (E : Type) where
  Success : Bool
  UpdatedPath : String
  RemainingErrors : List E
  RemovedPart : Option String
  PathParts : List String
  Error : Option String
deriving DecidableEq, Repr

/-- The dynamic values that reach `post` through `data interface{}`. -/
inductive Payload (E : Type) where
  | add (req : AddPartRequest E)
  | remove (req : RemovePartRequest E)
deriving DecidableEq, Repr

/-! ## The libraries and the network -/

/-- An `*http.Request` as far as this client sets it. -/
structure HttpRequest where
  Method : String
  URL : String
  Header : List (String × String)
  Body : String
deriving DecidableEq, Repr

/-- An `*http.Response`: the status code, and what `io.ReadAll(resp.Body)`
gives (the bytes, or a read error). -/
structure HttpResponse where
  StatusCode : Int
  Body : Except String String

/-- The pure library functions the client calls.
`marshal` is `json.Marshal`; `unmarshalAdd` and `unmarshalRemove` are
`json.Unmarshal` into the two response structs; `requestError method url` is
the error of `http.NewRequest` when it rejects the method or the URL. -/
structure Lib (E : Type) where
  marshal : Payload E → Except String String
  unmarshalAdd : String → Except String (AddPartResponse E)
  unmarshalRemove : String → Except String (RemovePartResponse E)
  requestError : String → String → Option String

/-- The network: the requests handed to `http.Client.Do` so far, and the
outcome of the k-th exchange (a transport error such as a timeout, or a
response). -/
structure Net where
  sent : List HttpRequest
  roundTrip : Nat → HttpRequest → Except String HttpResponse

/-- Library `http.NewRequest(method, url, body)`. -/
def NewRequest {E : Type} (lib : Lib E) (method url body : String) : Except String HttpRequest :=
  match lib.requestError method url with
  | some err => .error err
  | none => .ok { Method := method, URL := url, Header := [], Body := body }

/-- Library `req.Header.Set(key, value)`. -/
def HttpRequest.HeaderSet (req : HttpRequest) (key value : String) : HttpRequest :=
  { req with Header := (key, value) :: req.Header.filter (fun kv => kv.1 ≠ key) }

/-- Library `c.client.Do(req)`: one exchange, logged. -/
def HttpClient.Do (_cl : HttpClient) (req : HttpRequest) (net : Net) :
    Except String HttpResponse × Net :=
  (net.roundTrip net.sent.length req, { net with sent := net.sent ++ [req] })

/-- Go `http.StatusOK`. -/
def StatusOK : Int := 200

/-! ## The client (source lines 68-210) -/

/-- Go `NewFPVClient` (lines 69-76). -/
def NewFPVClient (baseURL : String) : FPVClient :=
  { baseURL := baseURL, client := { Timeout := 10 * 1000000000 } }

/-- Go `(c *FPVClient) NewPathBuilder` (lines 79-89). -/
def NewPathBuilder {E : Type} (c : FPVClient) (service rootPath : String)
    (relative fileAdded : Bool) : PathBuilder E :=
  { client := c
    service := service
    basePath := rootPath
    pathParts := []
    errors := []
    relative := relative
    fileAdded := fileAdded }

/-- Go `(c *FPVClient) post` (lines 180-210). -/
def post {E : Type} (lib : Lib E) (c : FPVClient) (endpoint : String) (data : Payload E)
    (net : Net) : Except String String × Net :=
  match lib.marshal data with
  | .error err => (.error ("failed to marshal request: " ++ err), net)
  | .ok jsonData =>
    let url := c.baseURL ++ endpoint
    match NewRequest lib "POST" url jsonData with
    | .error err => (.error ("failed to create request: " ++ err), net)
    | .ok req =>
      let req := req.HeaderSet "Content-Type" "application/json"
      match c.client.Do req net with
      | (.error err, net1) => (.error ("failed to make request: " ++ err), net1)
      | (.ok resp, net1) =>
        match resp.Body with
        | .error err => (.error ("failed to read response: " ++ err), net1)
        | .ok body =>
          if resp.StatusCode ≠ StatusOK then
            (.error ("API returned status " ++ toString resp.StatusCode ++ ": " ++ body), net1)
          else
            (.ok body, net1)

/-- Lines 93-111 of `AddPart`: build the request, post it to `/path/add`,
decode the reply. -/
def AddPart.exchange {E : Type} (lib : Lib E) (pb : PathBuilder E) (part : String) (net : Net) :
    Except String (AddPartResponse E) × Net :=
  let req : AddPartRequest E :=
    { Service := pb.service
      BasePath := pb.basePath
      Parts := [part]
      Errors := pb.errors
      Validate := true
      Relative := pb.relative
      FileAdded := pb.fileAdded }
  match post lib pb.client "/path/add" (.add req) net with
  | (.error err, net1) => (.error err, net1)
  | (.ok resp, net1) =>
    match lib.unmarshalAdd resp with
    | .error err => (.error ("failed to unmarshal response: " ++ err), net1)
    | .ok addResp => (.ok addResp, net1)

/-- Go `(pb *PathBuilder) AddPart` (lines 92-126): the returned pair, the
builder after the call, the network after the call. -/
def AddPart {E : Type} (lib : Lib E) (pb : PathBuilder E) (part : String) (net : Net) :
    Except String (List E) × PathBuilder E × Net :=
  match AddPart.exchange lib pb part net with
  | (.error err, net1) => (.error err, pb, net1)
  | (.ok addResp, net1) =>
    if !addResp.Success then
      match addResp.Error with
      | some msg => (.error ("API error: " ++ msg), pb, net1)
      | none => (.error "API request failed", pb, net1)
    else
      (.ok addResp.NewErrors,
        { pb with
          basePath := addResp.UpdatedPath
          pathParts := addResp.PathParts
          errors := addResp.AllErrors },
        net1)

/-- Lines 130-147 of `RemovePart`: build the request, post it to
`/path/remove`, decode the reply. -/
def RemovePart.exchange {E : Type} (lib : Lib E) (pb : PathBuilder E) (index : Int) (net : Net) :
    Except String (RemovePartResponse E) × Net :=
  let req : RemovePartRequest E :=
    { Service := pb.service
      BasePath := pb.basePath
      PartIndex := index
      Errors := pb.errors
      Relative := pb.relative
      FileAdded := pb.fileAdded }
  match post lib pb.client "/path/remove" (.remove req) net with
  | (.error err, net1) => (.error err, net1)
  | (.ok resp, net1) =>
    match lib.unmarshalRemove resp with
    | .error err => (.error ("failed to unmarshal response: " ++ err), net1)
    | .ok removeResp => (.ok removeResp, net1)

/-- Go `(pb *PathBuilder) RemovePart` (lines 129-162). -/
def RemovePart {E : Type} (lib : Lib E) (pb : PathBuilder E) (index : Int) (net : Net) :
    Except String (List E) × PathBuilder E × Net :=
  match RemovePart.exchange lib pb index net with
  | (.error err, net1) => (.error err, pb, net1)
  | (.ok removeResp, net1) =>
    if !removeResp.Success then
      match removeResp.Error with
      | some msg => (.error ("API error: " ++ msg), pb, net1)
      | none => (.error "API request failed", pb, net1)
    else
      (.ok removeResp.RemainingErrors,
        { pb with
          basePath := removeResp.UpdatedPath
          pathParts := removeResp.PathParts
          errors := removeResp.RemainingErrors },
        net1)

/-- Go `(pb *PathBuilder) GetCurrentPath` (lines 165-167). -/
def GetCurrentPath {E : Type} (pb : PathBuilder E) : String × PathBuilder E :=
  (pb.basePath, pb)

/-- Go `(pb *PathBuilder) GetErrors` (lines 170-172). -/
def GetErrors {E : Type} (pb : PathBuilder E) : List E × PathBuilder E :=
  (pb.errors, pb)

/-- Go `(pb *PathBuilder) GetPathParts` (lines 175-177). -/
def GetPathParts {E : Type} (pb : PathBuilder E) : List String × PathBuilder E :=
  (pb.pathParts, pb)

/-! ## Calls, replies and sequences of calls -/

/-- One call on the session: `AddPart(part)` or `RemovePart(index)`. -/
inductive Call where
  | add (part : String)
  | remove (index : Int)
deriving DecidableEq, Repr

/-- A decoded response of either endpoint. -/
inductive Reply (E : Type) where
  | add (resp : AddPartResponse E)
  | remove (resp : RemovePartResponse E)
deriving DecidableEq, Repr

/-- The `success` field of a decoded response. -/
def Reply.Success {E : Type} : Reply E → Bool
  | .add resp => resp.Success
  | .remove resp => resp.Success

/-- The `error` field of a decoded response. -/
def Reply.Error {E : Type} : Reply E → Option String
  | .add resp => resp.Error
  | .remove resp => resp.Error

/-- The session triple a decoded response carries: `updated_path`,
`path_parts`, and `all_errors` (add) or `remaining_errors` (remove). -/
def Reply.state {E : Type} : Reply E → String × List String × List E
  | .add resp => (resp.UpdatedPath, resp.PathParts, resp.AllErrors)
  | .remove resp => (resp.UpdatedPath, resp.PathParts, resp.RemainingErrors)

/-- The exchange of a call: `AddPart.exchange` or `RemovePart.exchange`. -/
def Call.exchange {E : Type} (lib : Lib E) (call : Call) (pb : PathBuilder E) (net : Net) :
    Except String (Reply E) × Net :=
  match call with
  | .add part =>
    match AddPart.exchange lib pb part net with
    | (.error err, net1) => (.error err, net1)
    | (.ok resp, net1) => (.ok (.add resp), net1)
  | .remove index =>
    match RemovePart.exchange lib pb index net with
    | (.error err, net1) => (.error err, net1)
    | (.ok resp, net1) => (.ok (.remove resp), net1)

/-- Performing a call: `AddPart` or `RemovePart`. -/
def Call.perform {E : Type} (lib : Lib E) (call : Call) (pb : PathBuilder E) (net : Net) :
    Except String (List E) × PathBuilder E × Net :=
  match call with
  | .add part => AddPart lib pb part net
  | .remove index => RemovePart lib pb index net

/-- The session triple `(basePath, pathParts, errors)`. -/
def PathBuilder.state {E : Type} (pb : PathBuilder E) : String × List String × List E :=
  (pb.basePath, pb.pathParts, pb.errors)

/-- A sequence of calls, one after the other, on the same session and the
same network. -/
def runCalls {E : Type} (lib : Lib E) : List Call → PathBuilder E → Net → PathBuilder E × Net
  | [], pb, net => (pb, net)
  | call :: calls, pb, net =>
    runCalls lib calls (call.perform lib pb net).2.1 (call.perform lib pb net).2.2

/-- The triple of a call's response when the exchange gave a decoded response
with `success = true`; `none` for a call that failed. -/
def Call.accepted {E : Type} (lib : Lib E) (call : Call) (pb : PathBuilder E) (net : Net) :
    Option (String × List String × List E) :=
  match (call.exchange lib pb net).1 with
  | .error _ => none
  | .ok reply => if reply.Success then some reply.state else none

/-- The triple of the most recent successful response in a sequence of calls,
`none` when no call of the sequence succeeded. -/
def lastAccepted {E : Type} (lib : Lib E) :
    List Call → PathBuilder E → Net → Option (String × List String × List E)
  | [], _, _ => none
  | call :: calls, pb, net =>
    match lastAccepted lib calls (call.perform lib pb net).2.1 (call.perform lib pb net).2.2 with
    | some st => some st
    | none => call.accepted lib pb net

/-! ## A concrete library and scripted networks, for evaluation -/

/-- A toy JSON codec: three bodies are understood, any other is a syntax
error; a request with an empty service cannot be encoded. -/
def demoLib : Lib String where
  marshal := fun data =>
    match data with
    | .add req =>
      if req.Service = "" then .error "unsupported value"
      else .ok (String.intercalate "," ("add" :: req.BasePath :: req.Parts))
    | .remove req =>
      if req.Service = "" then .error "unsupported value"
      else .ok (String.intercalate "," ["remove", req.BasePath, toString req.PartIndex])
  unmarshalAdd := fun body =>
    if body = "users" then
      .ok { Success := true, UpdatedPath := "C:\\Users", NewErrors := ["e1"],
            AllErrors := ["e0", "e1"], PathParts := ["Users"], Error := none }
    else if body = "rejected" then
      .ok { Success := false, UpdatedPath := "X", NewErrors := ["n"], AllErrors := ["a"],
            PathParts := ["p"], Error := some "bad part" }
    else if body = "silent" then
      .ok { Success := false, UpdatedPath := "", NewErrors := [], AllErrors := [],
            PathParts := [], Error := none }
    else .error "invalid character"
  unmarshalRemove := fun body =>
    if body = "users" then
      .ok { Success := true, UpdatedPath := "C:\\", RemainingErrors := ["e0"],
            RemovedPart := some "Users", PathParts := [], Error := none }
    else if body = "rejected" then
      .ok { Success := false, UpdatedPath := "X", RemainingErrors := ["r"],
            RemovedPart := none, PathParts := ["p"], Error := some "" }
    else if body = "silent" then
      .ok { Success := false, UpdatedPath := "", RemainingErrors := [],
            RemovedPart := none, PathParts := [], Error := none }
    else .error "invalid character"
  requestError := fun _ url => if url.get 0 = ':' then some "missing protocol scheme" else none

/-- A network that answers the k-th exchange with the k-th entry of a script
and times out afterwards. -/
def scripted (script : List (Except String HttpResponse)) : Net where
  sent := []
  roundTrip := fun k _ => script.getD k (.error "context deadline exceeded")

/-- The client of the example's `main`. -/
def demoClient : FPVClient := NewFPVClient "http://localhost:8000/api/v1"

/-- The builder of the example's `main`. -/
def demoBuilder : PathBuilder String := NewPathBuilder demoClient "windows" "C:\\" false false

/-- A builder in mid-session. -/
def midBuilder : PathBuilder String :=
  { client := demoClient, service := "windows", basePath := "C:\\Users\\golde",
    pathParts := ["Users", "golde"], errors := ["e0"], relative := false, fileAdded := false }

/-- The server answers 500 with a body that would decode as a success. -/
def net500 : Net := scripted [.ok { StatusCode := 500, Body := .ok "users" }]

/-- The server answers 200 with the body `users`. -/
def netUsers : Net := scripted [.ok { StatusCode := 200, Body := .ok "users" }]

/-- The server answers 200 with the body `rejected`. -/
def netRejected : Net := scripted [.ok { StatusCode := 200, Body := .ok "rejected" }]

/-- The server answers 200 with a body that is not JSON. -/
def netGarbage : Net := scripted [.ok { StatusCode := 200, Body := .ok "<html>" }]

/-- The server never answers. -/
def netSilent : Net := scripted []

/-- The server answers 500, and the connection breaks while the body is read. -/
def netUnreadable : Net :=
  scripted [.ok { StatusCode := 500, Body := .error "unexpected EOF" }]

/-- A client whose base URL `http.NewRequest` cannot parse. -/
def badUrlClient : FPVClient := NewFPVClient ":bad"

/-- A builder of `badUrlClient`. -/
def badUrlBuilder : PathBuilder String := NewPathBuilder badUrlClient "windows" "C:\\" false false

/-- The payload of the example's first call, `AddPart("Users")`. -/
def addUsers : Payload String :=
  .add { Service := "windows", BasePath := "C:\\", Parts := ["Users"], Errors := [],
         Validate := true, Relative := false, FileAdded := false }

/-- What `demoLib.unmarshalAdd` makes of the body `users`. -/
def usersAdded : AddPartResponse String :=
  { Success := true, UpdatedPath := "C:\\Users", NewErrors := ["e1"],
    AllErrors := ["e0", "e1"], PathParts := ["Users"], Error := none }

/-- What `demoLib.unmarshalRemove` makes of the body `users`. -/
def usersRemoved : RemovePartResponse String :=
  { Success := true, UpdatedPath := "C:\\", RemainingErrors := ["e0"],
    RemovedPart := some "Users", PathParts := [], Error := none }

/-- What `demoLib.unmarshalRemove` makes of the body `rejected`: a failure
whose `error` field is present and empty. -/
def removeRejected : RemovePartResponse String :=
  { Success := false, UpdatedPath := "X", RemainingErrors := ["r"],
    RemovedPart := none, PathParts := ["p"], Error := some "" }

/-! ## Helper lemmas: the two halves of a call -/

/-- A call to `AddPart` whose exchange failed returns that error and keeps the builder. -/
theorem AddPart_of_exchange_error {E : Type} (lib : Lib E) (pb : PathBuilder E) (part : String)
    (net net1 : Net) (err : String) (h : AddPart.exchange lib pb part net = (.error err, net1)) :
    AddPart lib pb part net = (.error err, pb, net1) := by
  simp [AddPart, h]

/-- A call to `AddPart` whose exchange decoded a response with `success = false`. -/
theorem AddPart_of_exchange_rejected {E : Type} (lib : Lib E) (pb : PathBuilder E) (part : String)
    (net net1 : Net) (resp : AddPartResponse E)
    (h : AddPart.exchange lib pb part net = (.ok resp, net1)) (hs : resp.Success = false) :
    AddPart lib pb part net =
      (.error (match resp.Error with
        | some msg => "API error: " ++ msg
        | none => "API request failed"), pb, net1) := by
  simp only [AddPart, h, hs]
  cases resp.Error <;> rfl

/-- A call to `AddPart` whose exchange decoded a response with `success = true`. -/
theorem AddPart_of_exchange_accepted {E : Type} (lib : Lib E) (pb : PathBuilder E) (part : String)
    (net net1 : Net) (resp : AddPartResponse E)
    (h : AddPart.exchange lib pb part net = (.ok resp, net1)) (hs : resp.Success = true) :
    AddPart lib pb part net =
      (.ok resp.NewErrors,
        { pb with
          basePath := resp.UpdatedPath
          pathParts := resp.PathParts
          errors := resp.AllErrors },
        net1) := by
  simp [AddPart, h, hs]

/-- A call to `RemovePart` whose exchange failed returns that error and keeps the builder. -/
theorem RemovePart_of_exchange_error {E : Type} (lib : Lib E) (pb : PathBuilder E) (index : Int)
    (net net1 : Net) (err : String) (h : RemovePart.exchange lib pb index net = (.error err, net1)) :
    RemovePart lib pb index net = (.error err, pb, net1) := by
  simp [RemovePart, h]

/-- A call to `RemovePart` whose exchange decoded a response with `success = false`. -/
theorem RemovePart_of_exchange_rejected {E : Type} (lib : Lib E) (pb : PathBuilder E)
    (index : Int) (net net1 : Net) (resp : RemovePartResponse E)
    (h : RemovePart.exchange lib pb index net = (.ok resp, net1)) (hs : resp.Success = false) :
    RemovePart lib pb index net =
      (.error (match resp.Error with
        | some msg => "API error: " ++ msg
        | none => "API request failed"), pb, net1) := by
  simp only [RemovePart, h, hs]
  cases resp.Error <;> rfl

/-- A call to `RemovePart` whose exchange decoded a response with `success = true`. -/
theorem RemovePart_of_exchange_accepted {E : Type} (lib : Lib E) (pb : PathBuilder E)
    (index : Int) (net net1 : Net) (resp : RemovePartResponse E)
    (h : RemovePart.exchange lib pb index net = (.ok resp, net1)) (hs : resp.Success = true) :
    RemovePart lib pb index net =
      (.ok resp.RemainingErrors,
        { pb with
          basePath := resp.UpdatedPath
          pathParts := resp.PathParts
          errors := resp.RemainingErrors },
        net1) := by
  simp [RemovePart, h, hs]

/-- The exchange of a call is one of two things: an error, or a decoded reply. -/
theorem exchange_cases {α : Type} (x : Except String α × Net) :
    (∃ err net1, x = (.error err, net1)) ∨ (∃ resp net1, x = (.ok resp, net1)) := by
  obtain ⟨r, net1⟩ := x
  cases r with
  | error err => exact Or.inl ⟨err, net1, rfl⟩
  | ok resp => exact Or.inr ⟨resp, net1, rfl⟩

/-- The builder after a call: the old one, or the old one with the triple of
the response, according to `Call.accepted`. -/
theorem perform_builder {E : Type} (lib : Lib E) (call : Call) (pb : PathBuilder E) (net : Net) :
    (call.perform lib pb net).2.1 =
      match call.accepted lib pb net with
      | none => pb
      | some st => { pb with basePath := st.1, pathParts := st.2.1, errors := st.2.2 } := by
  cases call with
  | add part =>
    rcases exchange_cases (AddPart.exchange lib pb part net) with ⟨err, net1, h⟩ | ⟨resp, net1, h⟩
    · simp [Call.perform, Call.accepted, Call.exchange, AddPart_of_exchange_error _ _ _ _ _ _ h, h]
    · cases hs : resp.Success
      · simp [Call.perform, Call.accepted, Call.exchange,
          AddPart_of_exchange_rejected _ _ _ _ _ _ h hs, h, hs, Reply.Success]
      · simp [Call.perform, Call.accepted, Call.exchange,
          AddPart_of_exchange_accepted _ _ _ _ _ _ h hs, h, hs, Reply.Success, Reply.state]
  | remove index =>
    rcases exchange_cases (RemovePart.exchange lib pb index net) with
      ⟨err, net1, h⟩ | ⟨resp, net1, h⟩
    · simp [Call.perform, Call.accepted, Call.exchange,
        RemovePart_of_exchange_error _ _ _ _ _ _ h, h]
    · cases hs : resp.Success
      · simp [Call.perform, Call.accepted, Call.exchange,
          RemovePart_of_exchange_rejected _ _ _ _ _ _ h hs, h, hs, Reply.Success]
      · simp [Call.perform, Call.accepted, Call.exchange,
          RemovePart_of_exchange_accepted _ _ _ _ _ _ h hs, h, hs, Reply.Success, Reply.state]

/-- A call returns an error exactly when no response was accepted. -/
theorem perform_error_iff {E : Type} (lib : Lib E) (call : Call) (pb : PathBuilder E) (net : Net) :
    (∃ err, (call.perform lib pb net).1 = .error err) ↔ call.accepted lib pb net = none := by
  cases call with
  | add part =>
    rcases exchange_cases (AddPart.exchange lib pb part net) with ⟨err, net1, h⟩ | ⟨resp, net1, h⟩
    · simp [Call.perform, Call.accepted, Call.exchange, AddPart_of_exchange_error _ _ _ _ _ _ h, h]
    · cases hs : resp.Success
      · simp [Call.perform, Call.accepted, Call.exchange,
          AddPart_of_exchange_rejected _ _ _ _ _ _ h hs, h, hs, Reply.Success]
      · simp [Call.perform, Call.accepted, Call.exchange,
          AddPart_of_exchange_accepted _ _ _ _ _ _ h hs, h, hs, Reply.Success]
  | remove index =>
    rcases exchange_cases (RemovePart.exchange lib pb index net) with
      ⟨err, net1, h⟩ | ⟨resp, net1, h⟩
    · simp [Call.perform, Call.accepted, Call.exchange,
        RemovePart_of_exchange_error _ _ _ _ _ _ h, h]
    · cases hs : resp.Success
      · simp [Call.perform, Call.accepted, Call.exchange,
          RemovePart_of_exchange_rejected _ _ _ _ _ _ h hs, h, hs, Reply.Success]
      · simp [Call.perform, Call.accepted, Call.exchange,
          RemovePart_of_exchange_accepted _ _ _ _ _ _ h hs, h, hs, Reply.Success]

/-- A sequence of calls ends in the triple of the most recent accepted
response, or in the triple it started from. -/
theorem runCalls_state {E : Type} (lib : Lib E) (calls : List Call) :
    ∀ (pb : PathBuilder E) (net : Net),
      (runCalls lib calls pb net).1.state = (lastAccepted lib calls pb net).getD pb.state := by
  induction calls with
  | nil => intro pb net; rfl
  | cons call calls ih =>
    intro pb net
    simp only [runCalls, lastAccepted]
    rw [ih]
    cases hl : lastAccepted lib calls (call.perform lib pb net).2.1 (call.perform lib pb net).2.2 with
    | some st => rfl
    | none =>
      simp only [Option.getD_none]
      rw [perform_builder]
      cases call.accepted lib pb net <;> rfl

/-- The message of a rejected call that carries a server message is never the
generic message. -/
theorem api_error_ne_generic (msg : String) : "API error: " ++ msg ≠ "API request failed" := by
  intro h
  have h1 := congrArg String.data h
  simp [String.data_append] at h1

/-- A read failure is never a status error: the two messages differ from their
first letter on. -/
theorem read_failure_ne_status (err body : String) (code : Int) :
    "failed to read response: " ++ err ≠
      "API returned status " ++ toString code ++ ": " ++ body := by
  intro h
  have h1 := congrArg String.data h
  simp [String.data_append] at h1

/-- The network after `post`, when the payload was encoded and the request
built: exactly one more request in the log. -/
theorem post_net {E : Type} (lib : Lib E) (c : FPVClient) (endpoint : String)
    (data : Payload E) (net : Net) (js : String)
    (hm : lib.marshal data = .ok js)
    (hu : lib.requestError "POST" (c.baseURL ++ endpoint) = none) :
    (post lib c endpoint data net).2 =
      { net with sent := net.sent ++
        [{ Method := "POST", URL := c.baseURL ++ endpoint,
           Header := [("Content-Type", "application/json")], Body := js }] } := by
  simp only [post, NewRequest, HttpClient.Do, HttpRequest.HeaderSet, hm, hu, List.filter_nil]
  generalize net.roundTrip net.sent.length _ = outcome
  cases outcome with
  | error e => rfl
  | ok resp =>
    simp only
    cases resp.Body with
    | error e => rfl
    | ok body =>
      simp only
      split <;> rfl

/-- The network after `AddPart` is the network after its `post`. -/
theorem AddPart_net {E : Type} (lib : Lib E) (pb : PathBuilder E) (part : String) (net : Net) :
    (AddPart lib pb part net).2.2 =
      (post lib pb.client "/path/add" (.add
        { Service := pb.service, BasePath := pb.basePath, Parts := [part], Errors := pb.errors,
          Validate := true, Relative := pb.relative, FileAdded := pb.fileAdded }) net).2 := by
  have h1 : (AddPart lib pb part net).2.2 = (AddPart.exchange lib pb part net).2 := by
    rcases exchange_cases (AddPart.exchange lib pb part net) with ⟨e, n, hx⟩ | ⟨r, n, hx⟩
    · rw [AddPart_of_exchange_error _ _ _ _ _ _ hx, hx]
    · cases hs : r.Success
      · rw [AddPart_of_exchange_rejected _ _ _ _ _ _ hx hs, hx]
      · rw [AddPart_of_exchange_accepted _ _ _ _ _ _ hx hs, hx]
  rw [h1]
  simp only [AddPart.exchange]
  generalize post lib pb.client _ _ net = posted
  obtain ⟨r, n⟩ := posted
  cases r with
  | error e => rfl
  | ok body =>
    simp only
    cases lib.unmarshalAdd body <;> rfl

/-- The network after `RemovePart` is the network after its `post`. -/
theorem RemovePart_net {E : Type} (lib : Lib E) (pb : PathBuilder E) (index : Int) (net : Net) :
    (RemovePart lib pb index net).2.2 =
      (post lib pb.client "/path/remove" (.remove
        { Service := pb.service, BasePath := pb.basePath, PartIndex := index,
          Errors := pb.errors, Relative := pb.relative, FileAdded := pb.fileAdded }) net).2 := by
  have h1 : (RemovePart lib pb index net).2.2 = (RemovePart.exchange lib pb index net).2 := by
    rcases exchange_cases (RemovePart.exchange lib pb index net) with ⟨e, n, hx⟩ | ⟨r, n, hx⟩
    · rw [RemovePart_of_exchange_error _ _ _ _ _ _ hx, hx]
    · cases hs : r.Success
      · rw [RemovePart_of_exchange_rejected _ _ _ _ _ _ hx hs, hx]
      · rw [RemovePart_of_exchange_accepted _ _ _ _ _ _ hx hs, hx]
  rw [h1]
  simp only [RemovePart.exchange]
  generalize post lib pb.client _ _ net = posted
  obtain ⟨r, n⟩ := posted
  cases r with
  | error e => rfl
  | ok body =>
    simp only
    cases lib.unmarshalRemove body <;> rfl

/-- C1: a call to `AddPart` or `RemovePart` that returns an error, whatever
the stage that produced the error, leaves `GetCurrentPath()`, `GetPathParts()`
and `GetErrors()` as they were before the call (the whole builder is the same). -/
theorem failed_call_keeps_session {E : Type} (lib : Lib E) (call : Call) (pb : PathBuilder E)
    (net : Net) (err : String) (h : (call.perform lib pb net).1 = .error err) :
    (GetCurrentPath (call.perform lib pb net).2.1).1 = (GetCurrentPath pb).1 ∧
    (GetPathParts (call.perform lib pb net).2.1).1 = (GetPathParts pb).1 ∧
    (GetErrors (call.perform lib pb net).2.1).1 = (GetErrors pb).1 ∧
    (call.perform lib pb net).2.1 = pb := by
  have hn : call.accepted lib pb net = none := (perform_error_iff lib call pb net).1 ⟨err, h⟩
  have hb := perform_builder lib call pb net
  rw [hn] at hb
  simp only at hb
  rw [hb]
  exact ⟨rfl, rfl, rfl, rfl⟩

/-- C2: when the exchange of `AddPart(part)` gives a decoded response with
`success = true`, the builder after the call has `basePath = updated_path`,
`pathParts = path_parts`, `errors = all_errors` of that response, and the call
returns the response's `new_errors`. -/
theorem AddPart_accepted_replaces_state {E : Type} (lib : Lib E) (pb : PathBuilder E)
    (part : String) (net net1 : Net) (resp : AddPartResponse E)
    (h : AddPart.exchange lib pb part net = (.ok resp, net1)) (hs : resp.Success = true) :
    (AddPart lib pb part net).2.1.basePath = resp.UpdatedPath ∧
    (AddPart lib pb part net).2.1.pathParts = resp.PathParts ∧
    (AddPart lib pb part net).2.1.errors = resp.AllErrors ∧
    (AddPart lib pb part net).1 = .ok resp.NewErrors := by
  rw [AddPart_of_exchange_accepted lib pb part net net1 resp h hs]
  exact ⟨rfl, rfl, rfl, rfl⟩

/-- C3: when the exchange of `RemovePart(index)` gives a decoded response with
`success = true`, the builder after the call has `basePath = updated_path`,
`pathParts = path_parts`, `errors = remaining_errors` of that response, and the
call returns that same `remaining_errors`, which is what `GetErrors()` returns
right after the call. -/
theorem RemovePart_accepted_replaces_state {E : Type} (lib : Lib E) (pb : PathBuilder E)
    (index : Int) (net net1 : Net) (resp : RemovePartResponse E)
    (h : RemovePart.exchange lib pb index net = (.ok resp, net1)) (hs : resp.Success = true) :
    (RemovePart lib pb index net).2.1.basePath = resp.UpdatedPath ∧
    (RemovePart lib pb index net).2.1.pathParts = resp.PathParts ∧
    (RemovePart lib pb index net).2.1.errors = resp.RemainingErrors ∧
    (RemovePart lib pb index net).1 = .ok resp.RemainingErrors ∧
    (RemovePart lib pb index net).1 = .ok (GetErrors (RemovePart lib pb index net).2.1).1 := by
  rw [RemovePart_of_exchange_accepted lib pb index net net1 resp h hs]
  exact ⟨rfl, rfl, rfl, rfl, rfl⟩

/-- C4: after any sequence of `AddPart`/`RemovePart` calls on a builder made by
`NewPathBuilder(service, rootPath, relative, fileAdded)`, the triple
`(basePath, pathParts, errors)` is the triple of the most recent successful
response of the sequence, and `(rootPath, [], [])` when no call succeeded. -/
theorem session_is_last_accepted_response {E : Type} (lib : Lib E) (c : FPVClient)
    (service rootPath : String) (relative fileAdded : Bool) (calls : List Call) (net : Net) :
    ((runCalls lib calls (NewPathBuilder c service rootPath relative fileAdded) net).1.basePath,
     (runCalls lib calls (NewPathBuilder c service rootPath relative fileAdded) net).1.pathParts,
     (runCalls lib calls (NewPathBuilder c service rootPath relative fileAdded) net).1.errors) =
      match lastAccepted lib calls (NewPathBuilder c service rootPath relative fileAdded) net with
      | some st => st
      | none => (rootPath, [], []) := by
  have h := runCalls_state lib calls (NewPathBuilder c service rootPath relative fileAdded) net
  simp only [PathBuilder.state] at h
  rw [h]
  cases lastAccepted lib calls (NewPathBuilder c service rootPath relative fileAdded) net <;> rfl

/-- C9: whatever a call to `AddPart` or `RemovePart` returns, the builder's
`service`, `relative`, `fileAdded` and `client` are the same after the call. -/
theorem call_keeps_configuration {E : Type} (lib : Lib E) (call : Call) (pb : PathBuilder E)
    (net : Net) :
    (call.perform lib pb net).2.1.service = pb.service ∧
    (call.perform lib pb net).2.1.relative = pb.relative ∧
    (call.perform lib pb net).2.1.fileAdded = pb.fileAdded ∧
    (call.perform lib pb net).2.1.client = pb.client := by
  rw [perform_builder]
  cases call.accepted lib pb net <;> exact ⟨rfl, rfl, rfl, rfl⟩

/-- C10: the builder made by `NewPathBuilder(service, rootPath, relative,
fileAdded)` reads `rootPath`, no parts and no errors; each accessor returns its
field and leaves the builder as it is. -/
theorem accessors_read_fields {E : Type} (c : FPVClient) (service rootPath : String)
    (relative fileAdded : Bool) (pb : PathBuilder E) :
    (GetCurrentPath (NewPathBuilder c service rootPath relative fileAdded : PathBuilder E)).1
      = rootPath ∧
    (GetPathParts (NewPathBuilder c service rootPath relative fileAdded : PathBuilder E)).1
      = [] ∧
    (GetErrors (NewPathBuilder c service rootPath relative fileAdded : PathBuilder E)).1 = [] ∧
    GetCurrentPath pb = (pb.basePath, pb) ∧
    GetPathParts pb = (pb.pathParts, pb) ∧
    GetErrors pb = (pb.errors, pb) :=
  ⟨rfl, rfl, rfl, rfl, rfl, rfl⟩

/-- C5 (amended): when the server's reply to `post` has a status other than
200, `post` fails and never returns a body.  The body is read before the
status is tested: when the body was read the error is
`API returned status <code>: <body>`, whatever the body is, and when reading
the body failed the error is `failed to read response: <err>`. -/
theorem post_rejects_non_200 {E : Type} (lib : Lib E) (c : FPVClient) (endpoint : String)
    (data : Payload E) (net : Net) (js : String) (resp : HttpResponse)
    (hm : lib.marshal data = .ok js)
    (hu : lib.requestError "POST" (c.baseURL ++ endpoint) = none)
    (hr : net.roundTrip net.sent.length
      { Method := "POST", URL := c.baseURL ++ endpoint,
        Header := [("Content-Type", "application/json")], Body := js } = .ok resp)
    (hs : resp.StatusCode ≠ 200) :
    (∀ body, (post lib c endpoint data net).1 ≠ .ok body) ∧
    (∀ body, resp.Body = .ok body →
      (post lib c endpoint data net).1 =
        .error ("API returned status " ++ toString resp.StatusCode ++ ": " ++ body)) ∧
    (∀ err, resp.Body = .error err →
      (post lib c endpoint data net).1 = .error ("failed to read response: " ++ err)) := by
  have hs1 : resp.StatusCode ≠ StatusOK := hs
  refine ⟨?_, ?_, ?_⟩
  · intro body
    simp only [post, NewRequest, HttpClient.Do, HttpRequest.HeaderSet, hm, hu, List.filter_nil, hr]
    cases resp.Body <;> simp [hs1]
  · intro body hb
    simp only [post, NewRequest, HttpClient.Do, HttpRequest.HeaderSet, hm, hu, List.filter_nil, hr,
      hb]
    simp [hs1]
  · intro err hb
    simp only [post, NewRequest, HttpClient.Do, HttpRequest.HeaderSet, hm, hu, List.filter_nil, hr,
      hb]

/-- C6: when the exchange of a call (either endpoint) decoded a response, the
call fails exactly when `success` is false; the error is then `API error: <msg>`
when the `error` field is `msg` (the empty string included) and
`API request failed` exactly when the field is absent. -/
theorem rejected_response_fails {E : Type} (lib : Lib E) (call : Call) (pb : PathBuilder E)
    (net net1 : Net) (reply : Reply E) (h : call.exchange lib pb net = (.ok reply, net1)) :
    ((∃ err, (call.perform lib pb net).1 = .error err) ↔ reply.Success = false) ∧
    (reply.Success = false →
      (∀ msg, reply.Error = some msg →
        (call.perform lib pb net).1 = .error ("API error: " ++ msg)) ∧
      (reply.Error = none → (call.perform lib pb net).1 = .error "API request failed") ∧
      ((call.perform lib pb net).1 = .error "API request failed" → reply.Error = none)) := by
  have key : (reply.Success = true → ∃ v, (call.perform lib pb net).1 = .ok v) ∧
      (reply.Success = false → (call.perform lib pb net).1 =
        .error (match reply.Error with
          | some msg => "API error: " ++ msg
          | none => "API request failed")) := by
    cases call with
    | add part =>
      rcases exchange_cases (AddPart.exchange lib pb part net) with ⟨e, n, hx⟩ | ⟨r, n, hx⟩
      · simp [Call.exchange, hx] at h
      · simp only [Call.exchange, hx, Prod.mk.injEq, Except.ok.injEq] at h
        obtain ⟨hr, _⟩ := h
        subst hr
        refine ⟨fun hs => ?_, fun hs => ?_⟩
        · exact ⟨r.NewErrors, by
            simp [Call.perform, AddPart_of_exchange_accepted _ _ _ _ _ _ hx hs]⟩
        · simp [Call.perform, AddPart_of_exchange_rejected _ _ _ _ _ _ hx hs, Reply.Error]
    | remove index =>
      rcases exchange_cases (RemovePart.exchange lib pb index net) with ⟨e, n, hx⟩ | ⟨r, n, hx⟩
      · simp [Call.exchange, hx] at h
      · simp only [Call.exchange, hx, Prod.mk.injEq, Except.ok.injEq] at h
        obtain ⟨hr, _⟩ := h
        subst hr
        refine ⟨fun hs => ?_, fun hs => ?_⟩
        · exact ⟨r.RemainingErrors, by
            simp [Call.perform, RemovePart_of_exchange_accepted _ _ _ _ _ _ hx hs]⟩
        · simp [Call.perform, RemovePart_of_exchange_rejected _ _ _ _ _ _ hx hs, Reply.Error]
  obtain ⟨kt, kf⟩ := key
  refine ⟨⟨fun ⟨err, he⟩ => ?_, fun hs => ⟨_, kf hs⟩⟩, fun hs => ⟨?_, ?_, ?_⟩⟩
  · cases hs : reply.Success with
    | false => rfl
    | true =>
      obtain ⟨v, hv⟩ := kt hs
      rw [hv] at he
      cases he
  · intro msg hmsg
    rw [kf hs, hmsg]
  · intro hnone
    rw [kf hs, hnone]
  · intro hg
    rw [kf hs] at hg
    cases he : reply.Error with
    | none => rfl
    | some msg =>
      rw [he] at hg
      simp only [Except.error.injEq] at hg
      exact absurd hg (api_error_ne_generic msg)

/-- C7 (amended): for any builder and any string `part`, when `json.Marshal`
encodes the request and `http.NewRequest` accepts `baseURL + "/path/add"`,
`AddPart(part)` hands to the network one POST to that URL whose body is the
encoding of the request with the builder's `service`, `basePath`, `errors`,
`relative`, `fileAdded`, with `parts = [part]` and `validate = true`; nothing
about `part` is checked locally. -/
theorem AddPart_sends_snapshot {E : Type} (lib : Lib E) (pb : PathBuilder E) (part : String)
    (net : Net) (js : String)
    (hm : lib.marshal (.add
      { Service := pb.service, BasePath := pb.basePath, Parts := [part], Errors := pb.errors,
        Validate := true, Relative := pb.relative, FileAdded := pb.fileAdded }) = .ok js)
    (hu : lib.requestError "POST" (pb.client.baseURL ++ "/path/add") = none) :
    (AddPart lib pb part net).2.2.sent = net.sent ++
      [{ Method := "POST", URL := pb.client.baseURL ++ "/path/add",
         Header := [("Content-Type", "application/json")], Body := js }] := by
  rw [AddPart_net, post_net lib pb.client "/path/add" _ net js hm hu]

/-- C8 (amended): for any builder and any integer `index` (negative or past
the end of `pathParts` included), when `json.Marshal` encodes the request and
`http.NewRequest` accepts `baseURL + "/path/remove"`, `RemovePart(index)` hands
to the network one POST to that URL whose body is the encoding of the request
with `part_index = index` and the builder's `service`, `basePath`, `errors`,
`relative`, `fileAdded`; and in every case the call fails exactly when its
exchange did not give a response with `success = true`. -/
theorem RemovePart_sends_index {E : Type} (lib : Lib E) (pb : PathBuilder E) (index : Int)
    (net : Net) :
    (∀ js : String,
      lib.marshal (.remove
        { Service := pb.service, BasePath := pb.basePath, PartIndex := index,
          Errors := pb.errors, Relative := pb.relative, FileAdded := pb.fileAdded }) = .ok js →
      lib.requestError "POST" (pb.client.baseURL ++ "/path/remove") = none →
      (RemovePart lib pb index net).2.2.sent = net.sent ++
        [{ Method := "POST", URL := pb.client.baseURL ++ "/path/remove",
           Header := [("Content-Type", "application/json")], Body := js }]) ∧
    ((∃ err, (RemovePart lib pb index net).1 = .error err) ↔
      ¬ ∃ resp net1, RemovePart.exchange lib pb index net = (.ok resp, net1) ∧
        resp.Success = true) := by
  constructor
  · intro js hm hu
    rw [RemovePart_net, post_net lib pb.client "/path/remove" _ net js hm hu]
  · rcases exchange_cases (RemovePart.exchange lib pb index net) with ⟨e, n, hx⟩ | ⟨r, n, hx⟩
    · simp [RemovePart_of_exchange_error _ _ _ _ _ _ hx, hx]
    · cases hs : r.Success
      · simp [RemovePart_of_exchange_rejected _ _ _ _ _ _ hx hs, hx, hs]
      · simp [RemovePart_of_exchange_accepted _ _ _ _ _ _ hx hs, hx, hs]

/-! ## The claims at concrete inputs -/

/-- C1 at concrete inputs: a 500 reply to `AddPart("")`, and after it an
encoding failure, a timeout, an undecodable body and a `success = false` reply. -/
theorem failed_call_keeps_session_witness :
    ((Call.perform demoLib (.add "") midBuilder net500).1
        = .error "API returned status 500: users" ∧
      ((GetCurrentPath (Call.perform demoLib (.add "") midBuilder net500).2.1).1
          = (GetCurrentPath midBuilder).1 ∧
        (GetPathParts (Call.perform demoLib (.add "") midBuilder net500).2.1).1
          = (GetPathParts midBuilder).1 ∧
        (GetErrors (Call.perform demoLib (.add "") midBuilder net500).2.1).1
          = (GetErrors midBuilder).1 ∧
        (Call.perform demoLib (.add "") midBuilder net500).2.1 = midBuilder)) ∧
    ((Call.perform demoLib (.add "x") { midBuilder with service := "" } netUsers).1
        = .error "failed to marshal request: unsupported value" ∧
      (Call.perform demoLib (.add "x") { midBuilder with service := "" } netUsers).2.1
        = { midBuilder with service := "" }) ∧
    ((Call.perform demoLib (.remove 0) midBuilder netSilent).1
        = .error "failed to make request: context deadline exceeded" ∧
      (Call.perform demoLib (.remove 0) midBuilder netSilent).2.1 = midBuilder) ∧
    ((Call.perform demoLib (.add "x") midBuilder netGarbage).1
        = .error "failed to unmarshal response: invalid character" ∧
      (Call.perform demoLib (.add "x") midBuilder netGarbage).2.1 = midBuilder) ∧
    ((Call.perform demoLib (.remove 5) midBuilder netRejected).1 = .error "API error: " ∧
      (Call.perform demoLib (.remove 5) midBuilder netRejected).2.1 = midBuilder) :=
  ⟨⟨rfl, failed_call_keeps_session demoLib (.add "") midBuilder net500 _ rfl⟩,
   ⟨rfl, (failed_call_keeps_session demoLib (.add "x") { midBuilder with service := "" }
      netUsers _ rfl).2.2.2⟩,
   ⟨rfl, (failed_call_keeps_session demoLib (.remove 0) midBuilder netSilent _ rfl).2.2.2⟩,
   ⟨rfl, (failed_call_keeps_session demoLib (.add "x") midBuilder netGarbage _ rfl).2.2.2⟩,
   ⟨rfl, (failed_call_keeps_session demoLib (.remove 5) midBuilder netRejected _ rfl).2.2.2⟩⟩

/-- C2 at a concrete input: `AddPart("Users")` on the example's builder, the
server accepting. -/
theorem AddPart_accepted_replaces_state_witness :
    (AddPart.exchange demoLib midBuilder "Users" netUsers
        = (.ok usersAdded, (AddPart.exchange demoLib midBuilder "Users" netUsers).2) ∧
      usersAdded.Success = true) ∧
    ((AddPart demoLib midBuilder "Users" netUsers).2.1.basePath = usersAdded.UpdatedPath ∧
      (AddPart demoLib midBuilder "Users" netUsers).2.1.pathParts = usersAdded.PathParts ∧
      (AddPart demoLib midBuilder "Users" netUsers).2.1.errors = usersAdded.AllErrors ∧
      (AddPart demoLib midBuilder "Users" netUsers).1 = .ok usersAdded.NewErrors) :=
  ⟨⟨rfl, rfl⟩,
   AddPart_accepted_replaces_state demoLib midBuilder "Users" netUsers _ usersAdded rfl rfl⟩

/-- C3 at a concrete input: `RemovePart(0)`, the server accepting. -/
theorem RemovePart_accepted_replaces_state_witness :
    (RemovePart.exchange demoLib midBuilder 0 netUsers
        = (.ok usersRemoved, (RemovePart.exchange demoLib midBuilder 0 netUsers).2) ∧
      usersRemoved.Success = true) ∧
    ((RemovePart demoLib midBuilder 0 netUsers).2.1.basePath = usersRemoved.UpdatedPath ∧
      (RemovePart demoLib midBuilder 0 netUsers).2.1.pathParts = usersRemoved.PathParts ∧
      (RemovePart demoLib midBuilder 0 netUsers).2.1.errors = usersRemoved.RemainingErrors ∧
      (RemovePart demoLib midBuilder 0 netUsers).1 = .ok usersRemoved.RemainingErrors ∧
      (RemovePart demoLib midBuilder 0 netUsers).1
        = .ok (GetErrors (RemovePart demoLib midBuilder 0 netUsers).2.1).1) :=
  ⟨⟨rfl, rfl⟩,
   RemovePart_accepted_replaces_state demoLib midBuilder 0 netUsers _ usersRemoved rfl rfl⟩

/-- C5 at a concrete input: status 500 with a body that `demoLib` would decode
as a `success = true` response. -/
theorem post_rejects_non_200_witness :
    (demoLib.marshal addUsers = .ok "add,C:\\,Users" ∧
      demoLib.requestError "POST" (demoClient.baseURL ++ "/path/add") = none ∧
      net500.roundTrip net500.sent.length
        { Method := "POST", URL := demoClient.baseURL ++ "/path/add",
          Header := [("Content-Type", "application/json")], Body := "add,C:\\,Users" }
        = .ok { StatusCode := 500, Body := .ok "users" } ∧
      (500 : Int) ≠ 200 ∧
      demoLib.unmarshalAdd "users" = .ok usersAdded) ∧
    (post demoLib demoClient "/path/add" addUsers net500).1
      = .error "API returned status 500: users" :=
  ⟨⟨rfl, rfl, rfl, by decide, rfl⟩,
   (post_rejects_non_200 demoLib demoClient "/path/add" addUsers net500 "add,C:\\,Users"
      { StatusCode := 500, Body := .ok "users" } rfl rfl rfl (by decide)).2.1 "users" rfl⟩

/-- C6 at a concrete input: `RemovePart(-1)` answered with `success = false`
and an `error` field that is present and empty. -/
theorem rejected_response_fails_witness :
    Call.exchange demoLib (.remove (-1)) midBuilder netRejected
        = (.ok (.remove removeRejected),
            (Call.exchange demoLib (.remove (-1)) midBuilder netRejected).2) ∧
    (Reply.remove removeRejected).Success = false ∧
    (Reply.remove removeRejected).Error = some "" ∧
    (Call.perform demoLib (.remove (-1)) midBuilder netRejected).1 = .error "API error: " :=
  ⟨rfl, rfl, rfl,
   ((rejected_response_fails demoLib (.remove (-1)) midBuilder netRejected _
      (.remove removeRejected) rfl).2 rfl).1 "" rfl⟩

/-- C7 at a concrete input: `AddPart("")`; the request goes out although the
part is empty (and the server never answers). -/
theorem AddPart_sends_snapshot_witness :
    (demoLib.marshal (.add
        { Service := midBuilder.service, BasePath := midBuilder.basePath, Parts := [""],
          Errors := midBuilder.errors, Validate := true, Relative := midBuilder.relative,
          FileAdded := midBuilder.fileAdded }) = .ok "add,C:\\Users\\golde," ∧
      demoLib.requestError "POST" (midBuilder.client.baseURL ++ "/path/add") = none) ∧
    (AddPart demoLib midBuilder "" netSilent).2.2.sent = netSilent.sent ++
      [{ Method := "POST", URL := midBuilder.client.baseURL ++ "/path/add",
         Header := [("Content-Type", "application/json")], Body := "add,C:\\Users\\golde," }] :=
  ⟨⟨rfl, rfl⟩, AddPart_sends_snapshot demoLib midBuilder "" netSilent _ rfl rfl⟩

/-- C8 at a concrete input: `RemovePart(-1)` on a builder with two parts. -/
theorem RemovePart_sends_index_witness :
    (demoLib.marshal (.remove
        { Service := midBuilder.service, BasePath := midBuilder.basePath, PartIndex := -1,
          Errors := midBuilder.errors, Relative := midBuilder.relative,
          FileAdded := midBuilder.fileAdded }) = .ok "remove,C:\\Users\\golde,-1" ∧
      demoLib.requestError "POST" (midBuilder.client.baseURL ++ "/path/remove") = none) ∧
    (RemovePart demoLib midBuilder (-1) netUsers).2.2.sent = netUsers.sent ++
      [{ Method := "POST", URL := midBuilder.client.baseURL ++ "/path/remove",
         Header := [("Content-Type", "application/json")],
         Body := "remove,C:\\Users\\golde,-1" }] ∧
    (RemovePart demoLib midBuilder (-1) netUsers).1 = .ok ["e0"] :=
  ⟨⟨rfl, rfl⟩,
   (RemovePart_sends_index demoLib midBuilder (-1) netUsers).1 _ rfl rfl, rfl⟩

/-! ## Where the claims as first stated fail -/

/-- C5 as stated fails: the server answers 500 and the body cannot be read;
`post` reports the read failure, an error that carries neither the status
code nor a body. -/
theorem post_unreadable_body_hides_status :
    (demoLib.marshal addUsers = .ok "add,C:\\,Users" ∧
      demoLib.requestError "POST" (demoClient.baseURL ++ "/path/add") = none ∧
      netUnreadable.roundTrip netUnreadable.sent.length
        { Method := "POST", URL := demoClient.baseURL ++ "/path/add",
          Header := [("Content-Type", "application/json")], Body := "add,C:\\,Users" }
        = .ok { StatusCode := 500, Body := .error "unexpected EOF" } ∧
      (500 : Int) ≠ 200) ∧
    (post demoLib demoClient "/path/add" addUsers netUnreadable).1
      = .error "failed to read response: unexpected EOF" ∧
    ¬ ∃ body, (post demoLib demoClient "/path/add" addUsers netUnreadable).1
      = .error ("API returned status " ++ toString (500 : Int) ++ ": " ++ body) := by
  refine ⟨⟨rfl, rfl, rfl, by decide⟩, rfl, ?_⟩
  rintro ⟨body, h⟩
  have h0 : (post demoLib demoClient "/path/add" addUsers netUnreadable).1
      = .error ("failed to read response: " ++ "unexpected EOF") := rfl
  rw [h0] at h
  exact read_failure_ne_status "unexpected EOF" body 500 (Except.error.inj h)

/-- C7 as stated fails: on a builder whose base URL `http.NewRequest` rejects,
`AddPart` returns before `c.client.Do` and no request is sent. -/
theorem AddPart_rejected_url_sends_nothing :
    netUsers.sent = [] ∧
    (AddPart demoLib badUrlBuilder "Users" netUsers).1
      = .error "failed to create request: missing protocol scheme" ∧
    (AddPart demoLib badUrlBuilder "Users" netUsers).2.2.sent = [] :=
  ⟨rfl, rfl, rfl⟩

/-- C8 as stated fails: on a builder whose base URL `http.NewRequest` rejects,
`RemovePart` returns before `c.client.Do` and no request is sent. -/
theorem RemovePart_rejected_url_sends_nothing :
    netUsers.sent = [] ∧
    (RemovePart demoLib badUrlBuilder 0 netUsers).1
      = .error "failed to create request: missing protocol scheme" ∧
    (RemovePart demoLib badUrlBuilder 0 netUsers).2.2.sent = [] :=
  ⟨rfl, rfl, rfl⟩

end FPV
